import Mathlib

/-!
Verification of the link resolution and press-dispatch engine of
src/components/Link.tsx (the useLink hook and the Link / InlineLink
components).  The press handler built by useLink is embedded as the pure
function resolvePress below; collaborators that live outside this file's
source (the mismatch detector linkRequiresWarning, the route matcher
router.matchPath, and the platform flag isWeb) are passed in as an explicit
environment, and the URL normalizer (sanitizeUrl composed with
convertBskyAppUrlIfNeeded) is modelled from the specification.
-/

namespace LinkVerify

/-- Prefix test on strings, the embedding of JavaScript's
String.prototype.startsWith used by the handler (href.startsWith in
Link.tsx) and by the modelled normalizer. -/
def strStartsWith (s pre : String) : Bool :=
  pre.data.isPrefixOf s.data

/-- Drop the first n characters of a string (used by the modelled
normalizer to strip the app origin from an in-app URL). -/
def dropStr (s : String) (n : Nat) : String :=
  ⟨s.data.drop n⟩

/-- Collaborators of useLink that are external to Link.tsx: the platform
flag isWeb (#/platform/detection), the mismatch detector
linkRequiresWarning (#/lib/strings/url-helpers) and the route matcher
router.matchPath (#/routes), the latter returning the (screen, params)
arguments spread into the navigation action. -/
structure Env where
  isWeb : Bool
  linkRequiresWarning : String → String → Bool
  matchPath : String → String × String

/-- The fields of the GestureResponderEvent that the handler reads after
casting to any: button (undefined on non-pointer surfaces) and the four
modifier flags. -/
structure Event where
  button : Option Nat
  metaKey : Bool
  altKey : Bool
  ctrlKey : Bool
  shiftKey : Bool

/-- Result of the caller-supplied onPress callback, whose TypeScript type
is void or false: the literal value false, undefined (void), or any other
value. Only the literal false cancels resolution. -/
inductive CbReturn
  | retFalse
  | retUndefined
  | retOther
deriving DecidableEq, Repr

/-- Configuration of one link as seen by the handler in useLink: the
resolved href, its externality classification, the display text, the
action prop (a string at runtime; its declared type is the union of
push, replace and navigate), the warnOnMismatchingTextChild flag and the
optional caller onPress callback. -/
structure LinkConfig where
  href : String
  isExternal : Bool
  displayText : String
  action : String
  warnOnMismatchingTextChild : Bool
  onPress : Option (Event → CbReturn)

/-- Stack-action kinds dispatched by the handler. -/
inductive NavKind
  | push
  | replace
  | navigate
deriving DecidableEq, Repr

/-- Observable side effects of one handler invocation, in order:
e.preventDefault(), openModal(...), closeModal(), Linking.openURL(href),
and a navigation dispatch carrying the matched (screen, params). -/
inductive Effect
  | preventDefault
  | openModal (name text href : String)
  | closeModal
  | openURL (href : String)
  | navDispatch (kind : NavKind) (screen : String) (params : String)
deriving DecidableEq, Repr

/-- The single outcome of one press. -/
inductive PressOutcome
  | Cancelled
  | Warn (text href : String)
  | OpenExternal (href : String)
  | Navigate (kind : NavKind) (href : String)
  | FatalError (msg : String)
deriving DecidableEq, Repr

/-- Effect trace and outcome of one press. -/
structure PressResult where
  effects : List Effect
  outcome : PressOutcome
deriving DecidableEq, Repr

/-- The requiresWarning boolean computed by the handler (Link.tsx lines
90-95): Boolean(warnOnMismatchingTextChild and displayText nonempty and
isExternal and linkRequiresWarning(href, displayText)). -/
def requiresWarning (env : Env) (cfg : LinkConfig) : Bool :=
  cfg.warnOnMismatchingTextChild && !(cfg.displayText == "") &&
    cfg.isExternal && env.linkRequiresWarning cfg.href cfg.displayText

/-- Shallow embedding of the press handler built by useLink (Link.tsx
lines 84-146).  It mirrors the source's decision tree: the caller
callback may cancel; otherwise either the mismatch warning modal is
opened, or the link is opened externally (external classification,
modifier click on web, or http/mailto prefix), or any active modal is
closed and a navigation action is dispatched through the route matcher;
an action string outside push/replace/navigate throws. -/
def resolvePress (env : Env) (cfg : LinkConfig) (e : Event) : PressResult :=
  let exitEarlyIfFalse := cfg.onPress.map (fun f => f e)
  if exitEarlyIfFalse = some CbReturn.retFalse then
    ⟨[], PressOutcome.Cancelled⟩
  else if requiresWarning env cfg then
    ⟨[Effect.preventDefault,
      Effect.openModal "link-warning" cfg.displayText cfg.href],
     PressOutcome.Warn cfg.displayText cfg.href⟩
  else if cfg.isExternal then
    ⟨[Effect.preventDefault, Effect.openURL cfg.href],
     PressOutcome.OpenExternal cfg.href⟩
  else
    let isMiddleClick := env.isWeb && e.button == some 1
    let isMetaKey := env.isWeb &&
      (e.metaKey || e.altKey || e.ctrlKey || e.shiftKey)
    let shouldOpenInNewTab := isMetaKey || isMiddleClick
    if shouldOpenInNewTab || strStartsWith cfg.href "http" ||
        strStartsWith cfg.href "mailto" then
      ⟨[Effect.preventDefault, Effect.openURL cfg.href],
       PressOutcome.OpenExternal cfg.href⟩
    else if cfg.action = "push" then
      ⟨[Effect.preventDefault, Effect.closeModal,
        Effect.navDispatch NavKind.push (env.matchPath cfg.href).1
          (env.matchPath cfg.href).2],
       PressOutcome.Navigate NavKind.push cfg.href⟩
    else if cfg.action = "replace" then
      ⟨[Effect.preventDefault, Effect.closeModal,
        Effect.navDispatch NavKind.replace (env.matchPath cfg.href).1
          (env.matchPath cfg.href).2],
       PressOutcome.Navigate NavKind.replace cfg.href⟩
    else if cfg.action = "navigate" then
      ⟨[Effect.preventDefault, Effect.closeModal,
        Effect.navDispatch NavKind.navigate (env.matchPath cfg.href).1
          (env.matchPath cfg.href).2],
       PressOutcome.Navigate NavKind.navigate cfg.href⟩
    else
      ⟨[Effect.preventDefault, Effect.closeModal],
       PressOutcome.FatalError "Unsupported navigator action."⟩

/-- Spec-side definition of modifier-click detection (section 4.4 of the
spec): on a pointer-capable surface, middle-click or any of
meta/alt/ctrl/shift held. -/
def modifierClickDetected (env : Env) (e : Event) : Bool :=
  env.isWeb &&
    ((e.metaKey || e.altKey || e.ctrlKey || e.shiftKey) || e.button == some 1)

/-- Spec-side definition of the flat disjunction shouldOpenExternally
(section 4.4 of the spec): external classification, or modifier click,
or an http or mailto prefix. -/
def shouldOpenExternallySpec (env : Env) (cfg : LinkConfig) (e : Event) : Bool :=
  cfg.isExternal || modifierClickDetected env e ||
    strStartsWith cfg.href "http" || strStartsWith cfg.href "mailto"

/-- Modelled from the spec: sanitizeUrl of the @braintree/sanitize-url
package is not under src/.  Section 4.1 describes it as stripping unsafe
URL constructs such as disallowed schemes, degrading invalid input to a
safe string.  Modelled as rewriting a javascript: scheme to the safe
about:blank and leaving every other input unchanged. -/
def sanitizeUrl (s : String) : String :=
  if strStartsWith s "javascript:" then "about:blank" else s

/-- Modelled from the spec: convertBskyAppUrlIfNeeded of
#/lib/strings/url-helpers is not under src/.  Section 4.1 describes it as
rewriting a recognized in-application URL (the same logical origin
expressed as a full URL) to the equivalent canonical relative path.
Modelled with the application origin https://bsky.app, whose prefix (16
characters) is stripped. -/
def convertBskyAppUrlIfNeeded (s : String) : String :=
  if strStartsWith s "https://bsky.app" then dropStr s 16 else s

/-- The normalizer applied by useLink to a string target (Link.tsx line
79): convertBskyAppUrlIfNeeded composed with sanitizeUrl. -/
def normalizeHref (s : String) : String :=
  convertBskyAppUrlIfNeeded (sanitizeUrl s)

/-- Apparent host of a URL-ish token, per section 4.3 of the spec:
ignore an http or https scheme, keep the part before the first slash,
compare case-insensitively. -/
def hostOf (s : String) : String :=
  let noScheme :=
    if strStartsWith s "https://" then dropStr s 8
    else if strStartsWith s "http://" then dropStr s 7
    else s
  ⟨(noScheme.data.takeWhile (fun c => !(c == '/'))).map Char.toLower⟩

/-- Modelled from the spec: linkRequiresWarning of
#/lib/strings/url-helpers is not under src/.  Section 4.3: a mismatch is
flagged when the display text looks like a destination reference (its
apparent host has a recognizable domain shape, modelled as containing a
dot) and that host differs from the actual target's host; text that is
not URL-shaped never warns. -/
def linkRequiresWarning (href displayText : String) : Bool :=
  (hostOf displayText).data.contains '.' &&
    !(hostOf displayText == hostOf href)

/-- Children of a Link or InlineLink element as far as the handler cares:
either a plain string or anything else. -/
inductive Children
  | strChild (s : String)
  | otherChild
deriving DecidableEq, Repr

/-- Display text derived from children (Link.tsx lines 188 and 237): the
string itself for a string child, the empty string otherwise. -/
def childDisplayText : Children → String
  | Children.strChild s => s
  | Children.otherChild => ""

/-- Configuration passed by the Link component to useLink (Link.tsx lines
186-191): LinkProps omits warnOnMismatchingTextChild (line 167), so
inside useLink that flag is undefined, i.e. false. -/
def linkConfig (href : String) (ext : Bool) (children : Children)
    (action : String) (cb : Option (Event → CbReturn)) : LinkConfig :=
  ⟨href, ext, childDisplayText children, action, false, cb⟩

/-- Configuration passed by the InlineLink component to useLink (Link.tsx
lines 235-241): the warning flag is forwarded, and the display text is
the children only when they are a plain string. -/
def inlineLinkConfig (href : String) (ext : Bool) (children : Children)
    (action : String) (warnFlag : Bool)
    (cb : Option (Event → CbReturn)) : LinkConfig :=
  ⟨href, ext, childDisplayText children, action, warnFlag, cb⟩

/-- Truthiness of the optional download string prop: absent and the empty
string are falsy, any other string is truthy. -/
def downloadTruthy : Option String → Bool
  | none => false
  | some s => !(s == "")

/-- The onPress prop wiring shared by Link (line 201) and InlineLink
(line 270): onPress is undefined when download is truthy, the resolver
otherwise. -/
def attachedOnPress (download : Option String)
    (handler : Event → PressResult) : Option (Event → PressResult) :=
  if downloadTruthy download then none else some handler

/-- Pressing a component: with no attached handler nothing runs and no
result is produced, otherwise the handler runs on the event. -/
def pressAttached (h : Option (Event → PressResult)) (e : Event) :
    Option PressResult :=
  h.map (fun f => f e)

/-- The link configuration with the caller callback removed, used to
state that a non-false callback return leaves resolution unchanged. -/
def dropCb (cfg : LinkConfig) : LinkConfig :=
  ⟨cfg.href, cfg.isExternal, cfg.displayText, cfg.action,
   cfg.warnOnMismatchingTextChild, none⟩

/-- Concrete environment for witnesses: a web surface, the modelled
mismatch detector, and a route matcher sending every path to the
(Profile, alice) pair. -/
def envW : Env := ⟨true, linkRequiresWarning, fun _ => ("Profile", "alice")⟩

/-- Concrete event with no modifier keys and no middle-click. -/
def eNoMod : Event := ⟨none, false, false, false, false⟩

/-- Concrete event with the meta key held. -/
def eMeta : Event := ⟨none, true, false, false, false⟩

/-- Concrete external link whose display text example.com mismatches its
href, with warnings enabled and no caller callback. -/
def cfgW : LinkConfig :=
  ⟨"https://other.com", true, "example.com", "push", true, none⟩

/-- Concrete internal link with the default push action. -/
def cfgInt : LinkConfig := ⟨"/profile/alice", false, "", "push", false, none⟩

/-- Concrete link whose caller callback returns the literal false. -/
def cfgCbF : LinkConfig :=
  ⟨"https://other.com", true, "t", "push", true, some (fun _ => CbReturn.retFalse)⟩

/-- Concrete internal link carrying an action string outside the
supported push, replace and navigate values. -/
def cfgBad : LinkConfig := ⟨"/profile/alice", false, "", "pop", false, none⟩

theorem no_warn_outcome (env : Env) (cfg : LinkConfig) (e : Event)
    (hrw : requiresWarning env cfg = false) :
    ∀ t h, (resolvePress env cfg e).outcome ≠ PressOutcome.Warn t h := by
  intro t h
  simp only [resolvePress]
  split_ifs <;> simp_all

/-- C1: for every press neither cancelled by the pre-press callback nor
escalated to a mismatch warning (action being one of the three values of
its declared type), the handler produces OpenExternal(href) exactly when
the flat disjunction shouldOpenExternally of the spec holds, and in
every other such case it produces Navigate: the source's nested
branching is equivalent to the flat disjunction. -/
theorem open_externally_flat_disjunction (env : Env) (cfg : LinkConfig) (e : Event)
    (hnc : cfg.onPress.map (fun f => f e) ≠ some CbReturn.retFalse)
    (hnw : requiresWarning env cfg = false)
    (hact : cfg.action = "push" ∨ cfg.action = "replace" ∨ cfg.action = "navigate") :
    ((resolvePress env cfg e).outcome = PressOutcome.OpenExternal cfg.href ↔
      shouldOpenExternallySpec env cfg e = true)
    ∧ (shouldOpenExternallySpec env cfg e = false →
      ∃ k, (resolvePress env cfg e).outcome = PressOutcome.Navigate k cfg.href) := by
  have hwarn : ¬(requiresWarning env cfg = true) := by simp [hnw]
  have hmc : (env.isWeb && (e.metaKey || e.altKey || e.ctrlKey || e.shiftKey) ||
      env.isWeb && (e.button == some 1)) = modifierClickDetected env e := by
    simp [modifierClickDetected, Bool.and_or_distrib_left]
  simp only [resolvePress]
  rw [if_neg hnc, if_neg hwarn]
  cases hext : cfg.isExternal with
  | true =>
    rw [if_pos rfl]
    simp [shouldOpenExternallySpec, hext]
  | false =>
    rw [if_neg (by simp)]
    rw [hmc]
    by_cases hop : (modifierClickDetected env e || strStartsWith cfg.href "http" ||
        strStartsWith cfg.href "mailto") = true
    · rw [if_pos hop]
      simp [shouldOpenExternallySpec, hext, hop]
    · rw [if_neg hop]
      simp only [Bool.not_eq_true] at hop
      have hD : shouldOpenExternallySpec env cfg e = false := by
        simp [shouldOpenExternallySpec, hext, hop]
      rcases hact with h | h | h
      · rw [if_pos h]
        exact ⟨by simp [hD], fun _ => ⟨NavKind.push, rfl⟩⟩
      · rw [if_neg (by simp [h]), if_pos h]
        exact ⟨by simp [hD], fun _ => ⟨NavKind.replace, rfl⟩⟩
      · rw [if_neg (by simp [h]), if_neg (by simp [h]), if_pos h]
        exact ⟨by simp [hD], fun _ => ⟨NavKind.navigate, rfl⟩⟩

/-- C1 witness: on a web surface, a press on the internal link
/profile/alice with the meta key held satisfies the equivalence; the
disjunction is true there, so the press opens externally. -/
theorem open_externally_flat_disjunction_witness :
    ((resolvePress envW cfgInt eMeta).outcome =
      PressOutcome.OpenExternal "/profile/alice" ↔
      shouldOpenExternallySpec envW cfgInt eMeta = true)
    ∧ (shouldOpenExternallySpec envW cfgInt eMeta = false →
      ∃ k, (resolvePress envW cfgInt eMeta).outcome =
        PressOutcome.Navigate k "/profile/alice") :=
  open_externally_flat_disjunction envW cfgInt eMeta (by decide) (by decide)
    (Or.inl rfl)

/-- C2: a pre-press callback returning exactly the value false makes the
handler return Cancelled with an empty effect trace, whatever the
target, mismatch state or modifiers; any other situation (no callback,
undefined or any other return value) resolves exactly as if no callback
were present. -/
theorem callback_false_cancels (env : Env) (cfg : LinkConfig) (e : Event) :
    (cfg.onPress.map (fun f => f e) = some CbReturn.retFalse →
      resolvePress env cfg e = ⟨[], PressOutcome.Cancelled⟩)
    ∧ (cfg.onPress.map (fun f => f e) ≠ some CbReturn.retFalse →
      resolvePress env cfg e = resolvePress env (dropCb cfg) e) := by
  constructor
  · intro h
    simp [resolvePress, h]
  · intro h
    have h2 : (Option.map (fun f => f e) (none : Option (Event → CbReturn))) ≠
        some CbReturn.retFalse := by simp
    simp only [resolvePress, dropCb]
    rw [if_neg h, if_neg h2]
    rfl

/-- C2 witness: a callback returning false on a warning-enabled external
link cancels with no effects, and the internal link without a callback
resolves as with the callback dropped. -/
theorem callback_false_cancels_witness :
    resolvePress envW cfgCbF eNoMod = ⟨[], PressOutcome.Cancelled⟩
    ∧ resolvePress envW cfgInt eNoMod = resolvePress envW (dropCb cfgInt) eNoMod :=
  ⟨(callback_false_cancels envW cfgCbF eNoMod).1 (by decide),
   (callback_false_cancels envW cfgInt eNoMod).2 (by decide)⟩

/-- C3: for every press not cancelled by the callback, the Warn outcome
is produced exactly when the caller opted into warnings, the display
text is nonempty, the link is classified external and the mismatch
detector flags the pair; when it is produced the link-warning modal is
opened with exactly the display text and href; with warnings disabled an
external link proceeds directly to OpenExternal. -/
theorem warn_iff_opted_text_external_mismatch (env : Env) (cfg : LinkConfig) (e : Event)
    (hnc : cfg.onPress.map (fun f => f e) ≠ some CbReturn.retFalse) :
    ((resolvePress env cfg e).outcome = PressOutcome.Warn cfg.displayText cfg.href ↔
      (cfg.warnOnMismatchingTextChild = true ∧ cfg.displayText ≠ "" ∧
        cfg.isExternal = true ∧
        env.linkRequiresWarning cfg.href cfg.displayText = true))
    ∧ (requiresWarning env cfg = true →
      resolvePress env cfg e =
        ⟨[Effect.preventDefault,
          Effect.openModal "link-warning" cfg.displayText cfg.href],
         PressOutcome.Warn cfg.displayText cfg.href⟩)
    ∧ (cfg.warnOnMismatchingTextChild = false → cfg.isExternal = true →
      (resolvePress env cfg e).outcome = PressOutcome.OpenExternal cfg.href) := by
  have hcond : requiresWarning env cfg = true ↔
      (cfg.warnOnMismatchingTextChild = true ∧ cfg.displayText ≠ "" ∧
        cfg.isExternal = true ∧
        env.linkRequiresWarning cfg.href cfg.displayText = true) := by
    simp [requiresWarning, and_assoc]
  refine ⟨?_, ?_, ?_⟩
  · by_cases hrw : requiresWarning env cfg = true
    · simp only [resolvePress]
      rw [if_neg hnc, if_pos hrw]
      simpa using hcond.mp hrw
    · simp only [resolvePress]
      rw [if_neg hnc, if_neg hrw]
      constructor
      · intro hout
        exfalso
        revert hout
        split_ifs <;> simp
      · intro hc
        exact absurd (hcond.mpr hc) hrw
  · intro hrw
    simp only [resolvePress]
    rw [if_neg hnc, if_pos hrw]
  · intro hflag hext
    have hrw : requiresWarning env cfg = false := by
      simp [requiresWarning, hflag]
    simp only [resolvePress]
    rw [if_neg hnc, if_neg (by simp [hrw]), if_pos hext]

/-- C3 witness: display text example.com against href
https://other.com with warnings enabled yields the Warn outcome with the
modal opened on exactly that pair, per the modelled mismatch detector. -/
theorem warn_iff_opted_text_external_mismatch_witness :
    ((resolvePress envW cfgW eNoMod).outcome =
      PressOutcome.Warn "example.com" "https://other.com" ↔
      (cfgW.warnOnMismatchingTextChild = true ∧ ("example.com" : String) ≠ "" ∧
        cfgW.isExternal = true ∧
        envW.linkRequiresWarning "https://other.com" "example.com" = true))
    ∧ (requiresWarning envW cfgW = true →
      resolvePress envW cfgW eNoMod =
        ⟨[Effect.preventDefault,
          Effect.openModal "link-warning" "example.com" "https://other.com"],
         PressOutcome.Warn "example.com" "https://other.com"⟩)
    ∧ (cfgW.warnOnMismatchingTextChild = false → cfgW.isExternal = true →
      (resolvePress envW cfgW eNoMod).outcome =
        PressOutcome.OpenExternal "https://other.com") :=
  warn_iff_opted_text_external_mismatch envW cfgW eNoMod (by decide)

/-- C4 counterexample: the external link https://other.com pressed with
no modifier keys and no cancelling callback, but with warnings enabled
and the mismatching display text example.com, yields Warn and not
OpenExternal, refuting the claim as stated. -/
theorem external_press_can_warn_counterexample :
    (resolvePress envW cfgW eNoMod).outcome =
      PressOutcome.Warn "example.com" "https://other.com"
    ∧ (resolvePress envW cfgW eNoMod).outcome ≠
      PressOutcome.OpenExternal "https://other.com" := by
  decide

/-- C4 amended: for every href classified external, a press without
modifier keys, without a cancelling pre-press callback and not
escalated to a mismatch warning always yields OpenExternal (an external
open of the href) and never yields Navigate. -/
theorem external_no_warning_opens_externally (env : Env) (cfg : LinkConfig) (e : Event)
    (hext : cfg.isExternal = true)
    (hnc : cfg.onPress.map (fun f => f e) ≠ some CbReturn.retFalse)
    (hnw : requiresWarning env cfg = false)
    (_hb : e.button = none) (_hm : e.metaKey = false) (_ha : e.altKey = false)
    (_hc : e.ctrlKey = false) (_hs : e.shiftKey = false) :
    resolvePress env cfg e =
      ⟨[Effect.preventDefault, Effect.openURL cfg.href],
       PressOutcome.OpenExternal cfg.href⟩
    ∧ ∀ k h, (resolvePress env cfg e).outcome ≠ PressOutcome.Navigate k h := by
  have heq : resolvePress env cfg e =
      ⟨[Effect.preventDefault, Effect.openURL cfg.href],
       PressOutcome.OpenExternal cfg.href⟩ := by
    simp only [resolvePress]
    rw [if_neg hnc, if_neg (by simp [hnw]), if_pos hext]
  exact ⟨heq, by simp [heq]⟩

/-- C4 witness: the same external link with warnings disabled and no
modifiers opens externally and never navigates. -/
theorem external_no_warning_opens_externally_witness :
    resolvePress envW ⟨"https://other.com", true, "example.com", "push", false, none⟩ eNoMod =
      ⟨[Effect.preventDefault, Effect.openURL "https://other.com"],
       PressOutcome.OpenExternal "https://other.com"⟩
    ∧ ∀ k h,
      (resolvePress envW ⟨"https://other.com", true, "example.com", "push", false, none⟩ eNoMod).outcome ≠
        PressOutcome.Navigate k h :=
  external_no_warning_opens_externally envW
    ⟨"https://other.com", true, "example.com", "push", false, none⟩ eNoMod
    rfl (by decide) (by decide) rfl rfl rfl rfl rfl

/-- C5: a press on an internal href that is not cancelled, not warned,
with no modifier click and no http or mailto prefix, under the default
push action, produces exactly the trace preventDefault, closeModal, then
a push dispatch of the (screen, params) pair returned by the route
matcher on the href: the modal close precedes the navigation dispatch,
and the outcome is Navigate(push, href). -/
theorem internal_default_press_navigates (env : Env) (cfg : LinkConfig) (e : Event)
    (hnc : cfg.onPress.map (fun f => f e) ≠ some CbReturn.retFalse)
    (hnw : requiresWarning env cfg = false)
    (hext : cfg.isExternal = false)
    (hmod : modifierClickDetected env e = false)
    (hhttp : strStartsWith cfg.href "http" = false)
    (hmailto : strStartsWith cfg.href "mailto" = false)
    (hact : cfg.action = "push") :
    resolvePress env cfg e =
      ⟨[Effect.preventDefault, Effect.closeModal,
        Effect.navDispatch NavKind.push (env.matchPath cfg.href).1
          (env.matchPath cfg.href).2],
       PressOutcome.Navigate NavKind.push cfg.href⟩ := by
  have hmc : (env.isWeb && (e.metaKey || e.altKey || e.ctrlKey || e.shiftKey) ||
      env.isWeb && (e.button == some 1)) = modifierClickDetected env e := by
    simp [modifierClickDetected, Bool.and_or_distrib_left]
  simp only [resolvePress]
  rw [if_neg hnc, if_neg (by simp [hnw]), if_neg (by simp [hext]), hmc,
    if_neg (by simp [hmod, hhttp, hmailto]), if_pos hact]

/-- C5 witness: the internal href /profile/alice with the default action
closes the modal and then dispatches a push of (Profile, alice). -/
theorem internal_default_press_navigates_witness :
    resolvePress envW cfgInt eNoMod =
      ⟨[Effect.preventDefault, Effect.closeModal,
        Effect.navDispatch NavKind.push "Profile" "alice"],
       PressOutcome.Navigate NavKind.push "/profile/alice"⟩ :=
  internal_default_press_navigates envW cfgInt eNoMod (by decide) (by decide)
    rfl (by decide) (by decide) (by decide) rfl

/-- C6: at the point of dispatch (internal target, no warning, no
modifier click, no http or mailto prefix), an action value outside push,
replace and navigate makes the handler throw the fatal Unsupported
navigator action error immediately: no navigation dispatch appears in
the trace, so the error is not a silent no-op. -/
theorem unsupported_action_fatal (env : Env) (cfg : LinkConfig) (e : Event)
    (hnc : cfg.onPress.map (fun f => f e) ≠ some CbReturn.retFalse)
    (hnw : requiresWarning env cfg = false)
    (hext : cfg.isExternal = false)
    (hmod : modifierClickDetected env e = false)
    (hhttp : strStartsWith cfg.href "http" = false)
    (hmailto : strStartsWith cfg.href "mailto" = false)
    (h1 : cfg.action ≠ "push") (h2 : cfg.action ≠ "replace")
    (h3 : cfg.action ≠ "navigate") :
    resolvePress env cfg e =
      ⟨[Effect.preventDefault, Effect.closeModal],
       PressOutcome.FatalError "Unsupported navigator action."⟩
    ∧ ∀ k s p, Effect.navDispatch k s p ∉ (resolvePress env cfg e).effects := by
  have hmc : (env.isWeb && (e.metaKey || e.altKey || e.ctrlKey || e.shiftKey) ||
      env.isWeb && (e.button == some 1)) = modifierClickDetected env e := by
    simp [modifierClickDetected, Bool.and_or_distrib_left]
  have heq : resolvePress env cfg e =
      ⟨[Effect.preventDefault, Effect.closeModal],
       PressOutcome.FatalError "Unsupported navigator action."⟩ := by
    simp only [resolvePress]
    rw [if_neg hnc, if_neg (by simp [hnw]), if_neg (by simp [hext]), hmc,
      if_neg (by simp [hmod, hhttp, hmailto]), if_neg h1, if_neg h2, if_neg h3]
  exact ⟨heq, by simp [heq]⟩

/-- C6 witness: the action string pop on an internal link throws the
fatal error with no navigation dispatch in the trace. -/
theorem unsupported_action_fatal_witness :
    resolvePress envW cfgBad eNoMod =
      ⟨[Effect.preventDefault, Effect.closeModal],
       PressOutcome.FatalError "Unsupported navigator action."⟩
    ∧ ∀ k s p, Effect.navDispatch k s p ∉ (resolvePress envW cfgBad eNoMod).effects :=
  unsupported_action_fatal envW cfgBad eNoMod (by decide) (by decide) rfl
    (by decide) (by decide) (by decide) (by decide) (by decide) (by decide)

/-- C7: when the callback returns exactly false the handler performs no
default-action suppression of its own (zero preventDefault effects);
when resolution proceeds past the callback, preventDefault appears
exactly once in the trace, in the warning branch as well as every
non-warning branch. -/
theorem prevent_default_once (env : Env) (cfg : LinkConfig) (e : Event) :
    (cfg.onPress.map (fun f => f e) = some CbReturn.retFalse →
      (resolvePress env cfg e).effects.count Effect.preventDefault = 0)
    ∧ (cfg.onPress.map (fun f => f e) ≠ some CbReturn.retFalse →
      (resolvePress env cfg e).effects.count Effect.preventDefault = 1) := by
  constructor
  · intro h
    simp [resolvePress, h]
  · intro h
    simp only [resolvePress]
    rw [if_neg h]
    split_ifs <;> simp [List.count_cons]

/-- C7 witness: the cancelling callback leaves zero preventDefault
effects, while the internal press carries exactly one. -/
theorem prevent_default_once_witness :
    (resolvePress envW cfgCbF eNoMod).effects.count Effect.preventDefault = 0
    ∧ (resolvePress envW cfgInt eNoMod).effects.count Effect.preventDefault = 1 :=
  ⟨(prevent_default_once envW cfgCbF eNoMod).1 (by decide),
   (prevent_default_once envW cfgInt eNoMod).2 (by decide)⟩

/-- C8: for every internal path, normalizing it expressed as a full
same-origin URL (sanitizeUrl followed by convertBskyAppUrlIfNeeded)
yields the same canonical href as normalizing the relative path
itself. -/
theorem normalizer_origin_roundtrip (p : String)
    (h : strStartsWith p "/" = true) :
    normalizeHref ("https://bsky.app" ++ p) = normalizeHref p := by
  have h1 : strStartsWith ("https://bsky.app" ++ p) "javascript:" = false := by
    simp [strStartsWith, List.isPrefixOf]
  have h2 : strStartsWith ("https://bsky.app" ++ p) "https://bsky.app" = true := by
    simp [strStartsWith, List.isPrefixOf]
  have h3 : dropStr ("https://bsky.app" ++ p) 16 = p := by
    simp [dropStr]
  have h4 : strStartsWith p "javascript:" = false := by
    simp [strStartsWith, List.isPrefixOf] at h ⊢
    rcases p with ⟨l⟩
    cases l with
    | nil => simp at h
    | cons c t =>
      simp [List.isPrefixOf] at h ⊢
      subst h
      simp
  have h5 : strStartsWith p "https://bsky.app" = false := by
    simp [strStartsWith, List.isPrefixOf] at h ⊢
    rcases p with ⟨l⟩
    cases l with
    | nil => simp at h
    | cons c t =>
      simp [List.isPrefixOf] at h ⊢
      subst h
      simp
  simp [normalizeHref, sanitizeUrl, convertBskyAppUrlIfNeeded, h1, h2, h3, h4, h5]

/-- C8 witness: the full URL form of /profile/alice normalizes to the
same canonical href as the relative path. -/
theorem normalizer_origin_roundtrip_witness :
    normalizeHref ("https://bsky.app" ++ "/profile/alice") =
      normalizeHref "/profile/alice" :=
  normalizer_origin_roundtrip "/profile/alice" (by decide)

/-- C9: a press on a Link component never yields Warn for any children,
target, mismatch state or modifiers, because LinkProps omits
warnOnMismatchingTextChild; and a press on an InlineLink whose children
are not a plain string never yields Warn either, because its display
text is then empty. -/
theorem warn_only_inline_string (env : Env) (e : Event) (href : String)
    (ext : Bool) (ch : Children) (act : String)
    (cb : Option (Event → CbReturn)) (wf : Bool) :
    (∀ t h, (resolvePress env (linkConfig href ext ch act cb) e).outcome ≠
      PressOutcome.Warn t h)
    ∧ (ch = Children.otherChild →
      ∀ t h, (resolvePress env (inlineLinkConfig href ext ch act wf cb) e).outcome ≠
        PressOutcome.Warn t h) := by
  constructor
  · exact no_warn_outcome env _ e (by simp [requiresWarning, linkConfig])
  · intro hch
    subst hch
    exact no_warn_outcome env _ e
      (by simp [requiresWarning, inlineLinkConfig, childDisplayText])

/-- C9 witness: a Link with the mismatching string child example.com on
an external href never warns, and an InlineLink with non-string children
and warnings enabled never warns. -/
theorem warn_only_inline_string_witness :
    (∀ t h,
      (resolvePress envW
        (linkConfig "https://other.com" true (Children.strChild "example.com") "push" none)
        eNoMod).outcome ≠ PressOutcome.Warn t h)
    ∧ (∀ t h,
      (resolvePress envW
        (inlineLinkConfig "https://other.com" true Children.otherChild "push" true none)
        eNoMod).outcome ≠ PressOutcome.Warn t h) :=
  ⟨(warn_only_inline_string envW eNoMod "https://other.com" true
      (Children.strChild "example.com") "push" none true).1,
   (warn_only_inline_string envW eNoMod "https://other.com" true
      Children.otherChild "push" none true).2 rfl⟩

/-- C10 counterexample: with the download prop set to the empty string
(a set but falsy value), the press handler is still attached and a press
produces a result, refuting the claim for that input. -/
theorem download_empty_string_attaches_counterexample :
    pressAttached (attachedOnPress (some "") (resolvePress envW cfgW)) eNoMod =
      some (resolvePress envW cfgW eNoMod)
    ∧ pressAttached (attachedOnPress (some "") (resolvePress envW cfgW)) eNoMod ≠
      none := by
  constructor
  · rfl
  · simp [pressAttached, attachedOnPress, downloadTruthy]

/-- C10 amended: when the download prop is set to a non-empty string on
Link or InlineLink, no press handler is attached and a press produces
nothing: the resolver never runs, so no outcome, warning, external open
or navigation can occur. -/
theorem download_nonempty_no_handler (env : Env) (cfg : LinkConfig) (e : Event)
    (d : String) (hd : d ≠ "") :
    attachedOnPress (some d) (resolvePress env cfg) = none
    ∧ pressAttached (attachedOnPress (some d) (resolvePress env cfg)) e = none := by
  constructor <;> simp [attachedOnPress, pressAttached, downloadTruthy, hd]

/-- C10 witness: with download set to file.txt no handler is attached
and pressing produces nothing. -/
theorem download_nonempty_no_handler_witness :
    attachedOnPress (some "file.txt") (resolvePress envW cfgW) = none
    ∧ pressAttached (attachedOnPress (some "file.txt") (resolvePress envW cfgW)) eNoMod =
      none :=
  download_nonempty_no_handler envW cfgW eNoMod "file.txt" (by decide)

end LinkVerify
